import Mathlib

/-!
Shallow embedding of the draft/publish reconciliation logic of the
ai-twitter-bot frontend (src/frontend/src/App.tsx).

The component state (Solid signals) becomes an explicit `AppState` record,
the browser's localStorage becomes a typed `Store` record (JSON
serialization of structured values is abstracted to storing the value
itself), and every async handler becomes a pure state-transition function
taking the outcome of its remote calls as an explicit argument.  Effects
(`createEffect`) that write-through the canonical list to storage are
applied at the end of every step, matching Solid's reactive flush.
-/

/-- A generated item of the canonical list: `{ id, text, posted }`
(App.tsx line 58-60). -/
structure GenItem where
  id : Nat
  text : String
  posted : Bool
  deriving Repr, DecidableEq

/-- A remote tweet as kept in the `tweets` / `myTweets` feeds, already
normalized to its text (`content || text` fallback applied). -/
structure PostedTweet where
  tweetId : String
  text : String
  deriving Repr, DecidableEq

/-- Kind of a message box notification (App.tsx line 46-48). -/
inductive MsgKind where
  | info
  | error
  | success
  deriving Repr, DecidableEq

/-- The localStorage keys the component reads and writes.  Structured
values (`generatedTweets`, `draftTweets`) are stored as the decoded value;
JSON round-tripping is abstracted. -/
structure Store where
  authToken : Option String := none
  loggedInUser : Option String := none
  generatedTweets : Option (List GenItem) := none
  draftTweets : Option (List GenItem) := none
  deriving Repr, DecidableEq

/-- The component state: the signals the reconciliation claims are about. -/
structure AppState where
  store : Store
  loggedInUser : Option String
  generatedTweets : List GenItem
  generatedTweet : Option String
  command : String
  history : List String
  tweets : List PostedTweet
  myTweets : List PostedTweet
  showAuthModal : Bool
  showTweetFeedback : Bool
  lastTweetId : Option String
  messageBox : Option (String × MsgKind)
  isPosting : Bool
  deriving Repr, DecidableEq

/-- Fresh component state over an empty storage. -/
def initState : AppState :=
  { store := {}
    loggedInUser := none
    generatedTweets := []
    generatedTweet := none
    command := ""
    history := []
    tweets := []
    myTweets := []
    showAuthModal := false
    showTweetFeedback := false
    lastTweetId := none
    messageBox := none
    isPosting := false }

/-- JS `!s.trim()`: a string is blank iff every character is whitespace,
which is exactly when its trim is the empty string. -/
def isBlank (s : String) : Bool :=
  s.data.all (·.isWhitespace)

/-- `getAuthToken` (App.tsx line 24-27): the stored token counts only when
truthy and not the literal string "undefined". -/
def getAuthToken (st : Store) : Option String :=
  match st.authToken with
  | some t => if t = "" ∨ t = "undefined" then none else some t
  | none => none

/-- JS truthiness of a nullable string: the empty string counts as absent. -/
def strTruthy : Option String → Option String
  | some s => if s = "" then none else some s
  | none => none

/-- Outcome of the primary post call (`/public-post` or `/direct-post`):
`ok` carries the server tweet id and its normalized text, `httpError` is a
non-2xx response (the handler throws `Error(await res.text())`), and
`netError` is a thrown fetch failure. -/
inductive PostResult where
  | ok (tweetId : String) (tweetText : String)
  | httpError (msg : String)
  | netError (msg : String)
  deriving Repr, DecidableEq

/-- Outcome of the best-effort mirror call to the external
`/post_tweet` service. -/
inductive MirrorResult where
  | ok
  | httpError (msg : String)
  | netError (msg : String)
  deriving Repr, DecidableEq

/-- Outcome of the `/generate` call. -/
inductive GenResult where
  | ok (content : String)
  | unauthorized
  | httpError (msg : String)
  | netError (msg : String)
  deriving Repr, DecidableEq

/-- Outcome of the `/login` or `/signup` call. -/
inductive AuthResult where
  | ok (accessToken : String)
  | err
  deriving Repr, DecidableEq

/-- Whether the mirror call raised (a thrown fetch error propagates out of
the `try` block; a non-ok response is only `console.warn`-ed). -/
def mirrorThrows : MirrorResult → Bool
  | .netError _ => true
  | _ => false

/-- `err.message || fallback` as used in the catch blocks. -/
def msgOr (m fallback : String) : String :=
  if m = "" then fallback else m

/-- The text-keyed posted flip performed on success inside
`handleDirectPost` (App.tsx line 153-155). -/
def flipByText (content : String) (l : List GenItem) : List GenItem :=
  l.map fun t => if t.text = content then { t with posted := true } else t

/-- The id-keyed posted flip performed by `postGeneratedTweet`
(App.tsx line 294-296). -/
def flipById (id : Nat) (l : List GenItem) : List GenItem :=
  l.map fun t => if t.id = id then { t with posted := true } else t

/-- `handleDirectPost` (App.tsx line 95-161).  `isPublicClone` is the
hostname test of line 102.  On a thrown mirror fetch (network error while
not on the public clone) control jumps to the catch block and the success
effects of lines 147-155 are skipped. -/
def handleDirectPost (s : AppState) (content : String) (isPublicClone : Bool)
    (primary : PostResult) (mirror : MirrorResult) : AppState :=
  if isBlank content then
    { s with messageBox := some ("Cannot post empty tweet", .error) }
  else
    match primary with
    | .httpError m =>
      { s with isPosting := false, messageBox := some (msgOr m "Post failed", .error) }
    | .netError m =>
      { s with isPosting := false, messageBox := some (msgOr m "Post failed", .error) }
    | .ok tid ttext =>
      match isPublicClone, mirror with
      | false, .netError m =>
        { s with isPosting := false, messageBox := some (msgOr m "Post failed", .error) }
      | _, _ =>
        { s with
          history := s.history ++ ["🤖 AI: Posted: \"" ++ ttext ++ "\""]
          tweets := ⟨tid, ttext⟩ :: s.tweets
          myTweets := ⟨tid, ttext⟩ :: s.myTweets
          generatedTweet := none
          showTweetFeedback := true
          lastTweetId := some tid
          generatedTweets := flipByText content s.generatedTweets
          isPosting := false }

/-- `postGeneratedTweet` (App.tsx line 290-298): looks up the draft by id,
awaits `handleDirectPost` (which swallows its own errors), then flips
`posted` on the id unconditionally. -/
def postGeneratedTweet (s : AppState) (id : Nat) (isPublicClone : Bool)
    (primary : PostResult) (mirror : MirrorResult) : AppState :=
  match s.generatedTweets.find? (fun t => t.id == id) with
  | none => s
  | some tw =>
    let s1 := handleDirectPost s tw.text isPublicClone primary mirror
    { s1 with generatedTweets := flipById id s1.generatedTweets }

/-- A remote call issued by the posting path. -/
inductive RemoteCall where
  | publicPost (content : String)
  | directPost (content : String)
  | mirrorPost (text : String)
  deriving Repr, DecidableEq

/-- The remote calls `handleDirectPost` issues, in order: the mirror call
happens only off the public clone and only after a successful primary. -/
def handleDirectPostCalls (content : String) (isPublicClone : Bool)
    (primary : PostResult) : List RemoteCall :=
  if isBlank content then []
  else if isPublicClone then [.publicPost content]
  else
    match primary with
    | .ok _ _ => [.directPost content, .mirrorPost content]
    | _ => [.directPost content]

/-- The remote calls `postGeneratedTweet id` issues. -/
def postGeneratedTweetCalls (s : AppState) (id : Nat) (isPublicClone : Bool)
    (primary : PostResult) : List RemoteCall :=
  match s.generatedTweets.find? (fun t => t.id == id) with
  | none => []
  | some tw => handleDirectPostCalls tw.text isPublicClone primary

/-- `generateTweet` (App.tsx line 223-262).  `now` is the value of
`Date.now()` used as the new item's id. -/
def generateTweet (s : AppState) (topic : String) (now : Nat)
    (result : GenResult) : AppState :=
  if isBlank topic then s
  else
    let s1 := { s with history := s.history ++ ["👤 You: " ++ topic] }
    match result with
    | .unauthorized =>
      { s1 with
        store := { s1.store with authToken := none }
        loggedInUser := none
        showAuthModal := true
        messageBox := some ("Session expired. Please log in again.", .error) }
    | .httpError m =>
      { s1 with messageBox := some (msgOr m "Generation failed", .error) }
    | .netError m =>
      { s1 with messageBox := some (msgOr m "Generation failed", .error) }
    | .ok content =>
      { s1 with
        generatedTweet := some content
        history := s1.history ++ ["🤖 AI: " ++ content]
        generatedTweets := s1.generatedTweets ++ [⟨now, content, false⟩] }

/-- The Enter-key handler of the command input (App.tsx line 488-493):
starts `generateTweet(command())` and clears the input unconditionally. -/
def commandEnterKey (s : AppState) (now : Nat) (result : GenResult) : AppState :=
  { generateTweet s s.command now result with command := "" }

/-- `editGeneratedTweet` (App.tsx line 304-308). -/
def editGeneratedTweet (s : AppState) (id : Nat) (newText : String) : AppState :=
  { s with generatedTweets :=
      s.generatedTweets.map fun t => if t.id = id then { t with text := newText } else t }

/-- `deleteGeneratedTweet` (App.tsx line 300-302). -/
def deleteGeneratedTweet (s : AppState) (id : Nat) : AppState :=
  { s with generatedTweets := s.generatedTweets.filter fun t => !(t.id == id) }

/-- `handleAuthSubmit` (App.tsx line 264-288), with the remote outcome as
argument; the password only flows into the request body. -/
def handleAuthSubmit (s : AppState) (username : String) (result : AuthResult) :
    AppState :=
  match result with
  | .err => { s with messageBox := some ("Authentication failed", .error) }
  | .ok tok =>
    { s with
      store := { s.store with authToken := some tok, loggedInUser := some username }
      loggedInUser := some username
      showAuthModal := false }

/-- `handleLogout` (App.tsx line 65-76). -/
def handleLogout (s : AppState) : AppState :=
  { s with
    store := { s.store with authToken := none, loggedInUser := none }
    loggedInUser := none
    tweets := []
    myTweets := []
    generatedTweets := []
    history := []
    generatedTweet := none
    messageBox := some ("Logged out successfully", .info) }

/-- `fetchTweets` (App.tsx line 195-204): `none` is a thrown fetch. -/
def fetchTweetsStep (s : AppState) (result : Option (List PostedTweet)) : AppState :=
  match result with
  | some data => { s with tweets := data }
  | none => { s with tweets := [], messageBox := some ("Network error", .error) }

/-- `fetchMyTweets` (App.tsx line 206-221): any failure clears the token
and the logged-in user. -/
def fetchMyTweetsStep (s : AppState) (result : Option (List PostedTweet)) :
    AppState :=
  match result with
  | some data => { s with myTweets := data }
  | none =>
    { s with
      store := { s.store with authToken := none }
      loggedInUser := none
      messageBox := some ("Login required to view your tweets.", .error) }

/-- The startup effect of App.tsx line 310-313: seed the canonical list
from the `generatedTweets` storage key when present. -/
def loadGenerated (s : AppState) : AppState :=
  match s.store.generatedTweets with
  | some l => { s with generatedTweets := l }
  | none => s

/-- The write-through effects of App.tsx line 315-324: serialize the full
canonical list to `generatedTweets` and its unposted subset to
`draftTweets` on every change. -/
def writeEffects (s : AppState) : AppState :=
  { s with store :=
      { s.store with
        generatedTweets := some s.generatedTweets
        draftTweets := some (s.generatedTweets.filter fun t => !t.posted) } }

/-- The logged-in user the session restore of `onMount` computes: the
stored user only when both the token and the user are truthy. -/
def restoreVal (st : Store) : Option String :=
  match getAuthToken st, strTruthy st.loggedInUser with
  | some _, some u => some u
  | _, _ => none

/-- The session-restore part of `onMount` (App.tsx line 331-339): both the
then- and the else-branch call `setLoggedInUser`. -/
def restoreSession (s : AppState) : AppState :=
  { s with loggedInUser := restoreVal s.store }

/-- The draft-merge part of `onMount` (App.tsx line 343-349): keep the
posted in-memory items and append the whole stored draft snapshot. -/
def loadDrafts (s : AppState) : AppState :=
  match s.store.draftTweets with
  | some snap =>
    { s with generatedTweets := s.generatedTweets.filter (·.posted) ++ snap }
  | none => s

/-- The whole startup sequence in Solid's execution order: the load effect
(line 310), the two write effects (lines 315, 319), then `onMount`'s
session restore and draft merge. -/
def mountRaw (s : AppState) : AppState :=
  loadDrafts (restoreSession (writeEffects (loadGenerated s)))

/-- A page reload: in-memory state resets, storage survives. -/
def resetMemory (s : AppState) : AppState :=
  { initState with store := s.store }

/-- The user-visible operations, each carrying the outcome of its remote
calls and, for generation, the `Date.now()` timestamp. -/
inductive Op where
  | generate (topic : String) (now : Nat) (result : GenResult)
  | generateViaEnter (now : Nat) (result : GenResult)
  | edit (id : Nat) (newText : String)
  | delete (id : Nat)
  | publish (id : Nat) (isPublicClone : Bool) (primary : PostResult)
      (mirror : MirrorResult)
  | directPost (content : String) (isPublicClone : Bool) (primary : PostResult)
      (mirror : MirrorResult)
  | authSubmit (username : String) (result : AuthResult)
  | logout
  | fetchMine (result : Option (List PostedTweet))
  | fetchPublic (result : Option (List PostedTweet))
  | setCommand (text : String)
  | mount
  | reload

/-- Dispatch one operation to its handler. -/
def applyOp (op : Op) (s : AppState) : AppState :=
  match op with
  | .generate topic now result => generateTweet s topic now result
  | .generateViaEnter now result => commandEnterKey s now result
  | .edit id newText => editGeneratedTweet s id newText
  | .delete id => deleteGeneratedTweet s id
  | .publish id pc primary mirror => postGeneratedTweet s id pc primary mirror
  | .directPost content pc primary mirror => handleDirectPost s content pc primary mirror
  | .authSubmit u result => handleAuthSubmit s u result
  | .logout => handleLogout s
  | .fetchMine r => fetchMyTweetsStep s r
  | .fetchPublic r => fetchTweetsStep s r
  | .setCommand text => { s with command := text }
  | .mount => mountRaw s
  | .reload => mountRaw (resetMemory s)

/-- One step: the handler followed by the reactive write-through effects. -/
def step (op : Op) (s : AppState) : AppState :=
  writeEffects (applyOp op s)

/-- The ids of the canonical list. -/
def genIds (s : AppState) : List Nat :=
  s.generatedTweets.map (·.id)

/-- States reachable from the fresh state by steps whose inputs satisfy a
side condition. -/
inductive ReachesW (ok : Op → AppState → Prop) : AppState → Prop where
  | init : ReachesW ok initState
  | next : ∀ op s, ReachesW ok s → ok op s → ReachesW ok (step op s)

/-- Side condition for C2: each successful generation's `Date.now()` value
is not already an id of the canonical list. -/
def freshOk : Op → AppState → Prop
  | .generate _ now (.ok _), s => now ∉ genIds s
  | .generateViaEnter now (.ok _), s => now ∉ genIds s
  | _, _ => True

/-- Side condition for C9: each successful login/signup returns a token
that is truthy and not the literal "undefined", and a nonempty username. -/
def authOk : Op → AppState → Prop
  | .authSubmit u (.ok tok), _ => tok ≠ "" ∧ tok ≠ "undefined" ∧ u ≠ ""
  | _, _ => True

/-- `MAX_CHAR_LIMIT` (App.tsx line 21). -/
def MAX_CHAR_LIMIT : Nat := 280

/-- The `disabled` condition of a draft's Post button (App.tsx line 577):
`isPosting() || tweet.text.length > MAX_CHAR_LIMIT`. -/
def draftPostDisabled (isPosting : Bool) (t : GenItem) : Bool :=
  isPosting || decide (MAX_CHAR_LIMIT < t.text.length)

/-- The load merge as the spec words it (spec 4.1 `loadInitial`): set
union keyed on `id`, preferring the in-memory entry for any id present in
both; stated here only to compare against the implemented merge. -/
def specMergeUnionById (mem snap : List GenItem) : List GenItem :=
  mem ++ snap.filter fun t => !(mem.map (·.id)).contains t.id

/-- Strengthened invariant for the no-duplicate-ids claim: the canonical
list has pairwise distinct ids and the storage keys, when written, mirror
the canonical list. -/
def Inv2 (s : AppState) : Prop :=
  (genIds s).Nodup ∧
  (s.store.generatedTweets = none ∨ s.store.generatedTweets = some s.generatedTweets) ∧
  (s.store.draftTweets = none ∨
    s.store.draftTweets = some (s.generatedTweets.filter fun t => !t.posted))

/-- Storage half of the session invariant: whenever a usable token is
stored, a nonempty username is stored alongside it. -/
def Inv9Store (st : Store) : Prop :=
  ∀ t, getAuthToken st = some t → ∃ u, st.loggedInUser = some u ∧ u ≠ ""

/-- Session invariant: the effective token and the in-memory username are
both present (with a nonempty name) or both absent, and the storage half
holds as well. -/
def Inv9 (s : AppState) : Prop :=
  ((getAuthToken s.store = none ∧ s.loggedInUser = none) ∨
    (∃ t u, getAuthToken s.store = some t ∧ s.loggedInUser = some u ∧ u ≠ "")) ∧
  Inv9Store s.store

/-- A 281-character text, one over the limit. -/
def longText : String := String.mk (List.replicate 281 'a')

/-- A state holding a single unposted draft "hello" with id 1. -/
def sOneHello : AppState := { initState with generatedTweets := [⟨1, "hello", false⟩] }

/-- A state holding a single over-long unposted draft with id 1. -/
def sLong : AppState := { initState with generatedTweets := [⟨1, longText, false⟩] }

/-- A state holding a single unposted draft "hi" with id 1. -/
def sHi : AppState := { initState with generatedTweets := [⟨1, "hi", false⟩] }

/-- A state whose in-memory list and stored draft snapshot both contain
id 1, with different texts. -/
def sMergeEx : AppState :=
  { initState with
    generatedTweets := [⟨1, "new", false⟩]
    store := { draftTweets := some [⟨1, "old", false⟩] } }

/-- A state holding two unposted drafts that share the text "x". -/
def sTwoSame : AppState :=
  { initState with generatedTweets := [⟨1, "x", false⟩, ⟨2, "x", false⟩] }

set_option maxRecDepth 4000

/-! ## Helper lemmas -/

/-- Mapping an id-preserving transform leaves the id projection alone. -/
theorem map_ids_of_id_preserving (f : GenItem → GenItem)
    (hf : ∀ t, (f t).id = t.id) (l : List GenItem) :
    (l.map f).map (·.id) = l.map (·.id) := by
  rw [List.map_map]
  exact List.map_congr_left fun t _ => hf t

/-- `flipByText` does not change ids. -/
theorem flipByText_ids (c : String) (l : List GenItem) :
    (flipByText c l).map (·.id) = l.map (·.id) := by
  apply map_ids_of_id_preserving
  intro t
  by_cases h : t.text = c <;> simp [h]

/-- `flipById` does not change ids. -/
theorem flipById_ids (id : Nat) (l : List GenItem) :
    (flipById id l).map (·.id) = l.map (·.id) := by
  apply map_ids_of_id_preserving
  intro t
  by_cases h : t.id = id <;> simp [h]

/-- The edit map does not change ids. -/
theorem edit_map_ids (id : Nat) (txt : String) (l : List GenItem) :
    (l.map fun t => if t.id = id then { t with text := txt } else t).map (·.id)
      = l.map (·.id) := by
  apply map_ids_of_id_preserving
  intro t
  by_cases h : t.id = id <;> simp [h]

/-- The edit map does not change posted flags. -/
theorem edit_map_posted (id : Nat) (txt : String) (l : List GenItem) :
    (l.map fun t => if t.id = id then { t with text := txt } else t).map (·.posted)
      = l.map (·.posted) := by
  rw [List.map_map]
  refine List.map_congr_left fun t _ => ?_
  by_cases h : t.id = id <;> simp [h]

/-- Filtering preserves distinctness of ids. -/
theorem nodup_ids_filter (p : GenItem → Bool) {l : List GenItem}
    (h : (l.map (·.id)).Nodup) : ((l.filter p).map (·.id)).Nodup :=
  h.sublist ((List.filter_sublist l).map (·.id))

/-- Splitting a list into its posted and unposted parts keeps ids distinct. -/
theorem nodup_ids_split (l : List GenItem) (h : (l.map (·.id)).Nodup) :
    ((l.filter (·.posted) ++ l.filter (fun t => !t.posted)).map (·.id)).Nodup := by
  have hp : List.Perm
      ((l.filter (·.posted) ++ l.filter (fun t => !t.posted)).map (·.id))
      (l.map (·.id)) :=
    (List.filter_append_perm (fun t => t.posted) l).map (·.id)
  exact hp.nodup_iff.mpr h

/-- Refiltering the posted part is the identity. -/
theorem filter_posted_posted (l : List GenItem) :
    (l.filter (·.posted)).filter (·.posted) = l.filter (·.posted) := by
  induction l with
  | nil => rfl
  | cons a l ih => cases ha : a.posted <;> simp [List.filter_cons, ha, ih]

/-- The posted part has no unposted elements. -/
theorem filter_posted_not (l : List GenItem) :
    (l.filter (·.posted)).filter (fun t => !t.posted) = [] := by
  induction l with
  | nil => rfl
  | cons a l ih => cases ha : a.posted <;> simp [List.filter_cons, ha, ih]

/-- The unposted part has no posted elements. -/
theorem filter_not_posted (l : List GenItem) :
    (l.filter (fun t => !t.posted)).filter (·.posted) = [] := by
  induction l with
  | nil => rfl
  | cons a l ih => cases ha : a.posted <;> simp [List.filter_cons, ha, ih]

/-- Refiltering the unposted part is the identity. -/
theorem filter_not_not (l : List GenItem) :
    (l.filter (fun t => !t.posted)).filter (fun t => !t.posted)
      = l.filter (fun t => !t.posted) := by
  induction l with
  | nil => rfl
  | cons a l ih => cases ha : a.posted <;> simp [List.filter_cons, ha, ih]

/-- In `flipById id l`, any element carrying the flipped id is posted. -/
theorem flipById_id_posted {id : Nat} {l : List GenItem} {t : GenItem}
    (ht : t ∈ flipById id l) (hid : t.id = id) : t.posted = true := by
  unfold flipById at ht
  obtain ⟨a, ha, rfl⟩ := List.mem_map.mp ht
  by_cases h : a.id = id
  · simp [h]
  · simp only [if_neg h] at hid ⊢
    exact absurd hid h

/-! ## State-level bookkeeping lemmas -/

/-- `handleDirectPost` never changes the ids of the canonical list. -/
theorem genIds_handleDirectPost (s : AppState) (c : String) (pc : Bool)
    (pr : PostResult) (mi : MirrorResult) :
    genIds (handleDirectPost s c pc pr mi) = genIds s := by
  unfold handleDirectPost
  split
  · rfl
  · cases pr with
    | httpError m => rfl
    | netError m => rfl
    | ok tid tt =>
      cases pc <;> cases mi <;> simp [genIds, flipByText_ids]

/-- `postGeneratedTweet` never changes the ids of the canonical list. -/
theorem genIds_postGeneratedTweet (s : AppState) (id : Nat) (pc : Bool)
    (pr : PostResult) (mi : MirrorResult) :
    genIds (postGeneratedTweet s id pc pr mi) = genIds s := by
  unfold postGeneratedTweet
  cases hf : s.generatedTweets.find? (fun t => t.id == id) with
  | none => rfl
  | some tw =>
    show (flipById id (handleDirectPost s tw.text pc pr mi).generatedTweets).map (·.id)
        = genIds s
    rw [flipById_ids]
    exact genIds_handleDirectPost s tw.text pc pr mi

/-- The write-through effects do not touch the canonical list. -/
theorem genIds_writeEffects (s : AppState) : genIds (writeEffects s) = genIds s := rfl

/-- `restoreSession` changes neither storage nor the canonical list. -/
theorem restoreSession_store (s : AppState) : (restoreSession s).store = s.store := rfl

/-- `restoreSession` keeps the canonical list. -/
theorem restoreSession_generatedTweets (s : AppState) :
    (restoreSession s).generatedTweets = s.generatedTweets := rfl

/-- `loadGenerated` keeps the whole state when nothing is stored, and only
swaps the canonical list otherwise. -/
theorem loadGenerated_store (s : AppState) : (loadGenerated s).store = s.store := by
  unfold loadGenerated
  split <;> rfl

/-- After the startup load, the canonical list is the stored snapshot when
one exists. -/
theorem loadGenerated_of_some {s : AppState} {g : List GenItem}
    (h : s.store.generatedTweets = some g) :
    loadGenerated s = { s with generatedTweets := g } := by
  unfold loadGenerated
  rw [h]

/-- After the startup load with empty storage the state is unchanged. -/
theorem loadGenerated_of_none {s : AppState}
    (h : s.store.generatedTweets = none) : loadGenerated s = s := by
  unfold loadGenerated
  rw [h]

/-- The canonical list `mountRaw` produces: the loaded list split into its
posted part followed by its unposted part. -/
theorem mountRaw_generatedTweets (s : AppState) :
    (mountRaw s).generatedTweets
      = (loadGenerated s).generatedTweets.filter (·.posted)
          ++ (loadGenerated s).generatedTweets.filter (fun t => !t.posted) := by
  unfold mountRaw loadDrafts
  simp [restoreSession_store, restoreSession_generatedTweets, writeEffects]

/-! ## The no-duplicate-ids invariant -/

/-- `generateTweet` keeps ids distinct provided a successful generation's
timestamp is fresh. -/
theorem nodup_generateTweet (s : AppState) (topic : String) (now : Nat)
    (result : GenResult) (hn : (genIds s).Nodup)
    (hfresh : ∀ c, result = GenResult.ok c → now ∉ genIds s) :
    (genIds (generateTweet s topic now result)).Nodup := by
  unfold generateTweet
  split
  · exact hn
  · cases result with
    | ok content =>
      have hfr : now ∉ genIds s := hfresh content rfl
      simp only [genIds] at *
      simp [List.nodup_append, hn, hfr]
    | unauthorized => exact hn
    | httpError m => exact hn
    | netError m => exact hn

/-- Every operation keeps the canonical ids distinct, provided generation
timestamps are fresh. -/
theorem nodup_applyOp (op : Op) (s : AppState) (h : Inv2 s)
    (hok : freshOk op s) : (genIds (applyOp op s)).Nodup := by
  obtain ⟨hn, hg, hd⟩ := h
  cases op with
  | generate topic now result =>
    refine nodup_generateTweet s topic now result hn ?_
    intro c hc
    subst hc
    exact hok
  | generateViaEnter now result =>
    show (genIds { generateTweet s s.command now result with command := "" }).Nodup
    refine nodup_generateTweet s s.command now result hn ?_
    intro c hc
    subst hc
    exact hok
  | edit id newText =>
    show ((s.generatedTweets.map fun t =>
        if t.id = id then { t with text := newText } else t).map (·.id)).Nodup
    rw [edit_map_ids]
    exact hn
  | delete id =>
    exact nodup_ids_filter _ hn
  | publish id pc primary mirror =>
    show (genIds (postGeneratedTweet s id pc primary mirror)).Nodup
    rw [genIds_postGeneratedTweet]
    exact hn
  | directPost content pc primary mirror =>
    show (genIds (handleDirectPost s content pc primary mirror)).Nodup
    rw [genIds_handleDirectPost]
    exact hn
  | authSubmit u result => cases result <;> exact hn
  | logout => simp [genIds, applyOp, handleLogout]
  | fetchMine r => cases r <;> exact hn
  | fetchPublic r => cases r <;> exact hn
  | setCommand text => exact hn
  | mount =>
    show ((mountRaw s).generatedTweets.map (·.id)).Nodup
    rw [mountRaw_generatedTweets]
    apply nodup_ids_split
    rcases hg with hg | hg
    · rw [loadGenerated_of_none hg]
      exact hn
    · rw [loadGenerated_of_some hg]
      exact hn
  | reload =>
    show ((mountRaw (resetMemory s)).generatedTweets.map (·.id)).Nodup
    rw [mountRaw_generatedTweets]
    apply nodup_ids_split
    rcases hg with hg | hg
    · rw [loadGenerated_of_none (s := resetMemory s) hg]
      simp [resetMemory, initState]
    · rw [loadGenerated_of_some (s := resetMemory s) hg]
      exact hn

/-- One step preserves the strengthened invariant. -/
theorem inv2_step (op : Op) (s : AppState) (h : Inv2 s) (hok : freshOk op s) :
    Inv2 (step op s) :=
  ⟨nodup_applyOp op s h hok, Or.inr rfl, Or.inr rfl⟩

/-- The strengthened invariant holds in the fresh state. -/
theorem inv2_init : Inv2 initState :=
  ⟨by simp [genIds, initState], Or.inl rfl, Or.inl rfl⟩

/-- The strengthened invariant holds in every reachable state. -/
theorem inv2_reaches {s : AppState} (h : ReachesW freshOk s) : Inv2 s := by
  induction h with
  | init => exact inv2_init
  | next op s hs hok ih => exact inv2_step op s ih hok

/-! ## The session invariant -/

/-- `getAuthToken` only looks at the stored token. -/
theorem getAuthToken_congr {st st' : Store} (h : st'.authToken = st.authToken) :
    getAuthToken st' = getAuthToken st := by
  unfold getAuthToken
  rw [h]

/-- The session invariant only depends on the two auth fields of storage
and the in-memory user. -/
theorem inv9_congr {s s' : AppState}
    (h1 : s'.store.authToken = s.store.authToken)
    (h2 : s'.store.loggedInUser = s.store.loggedInUser)
    (h3 : s'.loggedInUser = s.loggedInUser) (h : Inv9 s) : Inv9 s' := by
  unfold Inv9 Inv9Store at h ⊢
  rw [getAuthToken_congr h1, h2, h3]
  exact h

/-- `handleDirectPost` leaves the session alone. -/
theorem session_handleDirectPost (s : AppState) (c : String) (pc : Bool)
    (pr : PostResult) (mi : MirrorResult) :
    (handleDirectPost s c pc pr mi).store.authToken = s.store.authToken ∧
    (handleDirectPost s c pc pr mi).store.loggedInUser = s.store.loggedInUser ∧
    (handleDirectPost s c pc pr mi).loggedInUser = s.loggedInUser := by
  unfold handleDirectPost
  split
  · exact ⟨rfl, rfl, rfl⟩
  · cases pr with
    | httpError m => exact ⟨rfl, rfl, rfl⟩
    | netError m => exact ⟨rfl, rfl, rfl⟩
    | ok tid tt => cases pc <;> cases mi <;> exact ⟨rfl, rfl, rfl⟩

/-- `postGeneratedTweet` leaves the session alone. -/
theorem session_postGeneratedTweet (s : AppState) (id : Nat) (pc : Bool)
    (pr : PostResult) (mi : MirrorResult) :
    (postGeneratedTweet s id pc pr mi).store.authToken = s.store.authToken ∧
    (postGeneratedTweet s id pc pr mi).store.loggedInUser = s.store.loggedInUser ∧
    (postGeneratedTweet s id pc pr mi).loggedInUser = s.loggedInUser := by
  unfold postGeneratedTweet
  cases hf : s.generatedTweets.find? (fun t => t.id == id) with
  | none => exact ⟨rfl, rfl, rfl⟩
  | some tw => exact session_handleDirectPost s tw.text pc pr mi

/-- `generateTweet` preserves the session invariant: the only session
change, on a 401, clears both the token and the user. -/
theorem inv9_generateTweet (s : AppState) (topic : String) (now : Nat)
    (result : GenResult) (h : Inv9 s) :
    Inv9 (generateTweet s topic now result) := by
  unfold generateTweet
  split
  · exact h
  · cases result with
    | unauthorized =>
      refine ⟨Or.inl ⟨rfl, rfl⟩, ?_⟩
      intro t ht
      exact Option.noConfusion ht
    | ok c => exact h
    | httpError m => exact h
    | netError m => exact h

/-- Session restore establishes the invariant from the storage half alone. -/
theorem inv9_restoreSession (s : AppState) (hst : Inv9Store s.store) :
    Inv9 (restoreSession s) := by
  constructor
  · cases hta : getAuthToken s.store with
    | none =>
      left
      refine ⟨hta, ?_⟩
      show restoreVal s.store = none
      unfold restoreVal
      rw [hta]
    | some tok =>
      obtain ⟨u, hu, hune⟩ := hst tok hta
      right
      refine ⟨tok, u, hta, ?_, hune⟩
      show restoreVal s.store = some u
      unfold restoreVal
      rw [hta, hu]
      simp [strTruthy, hune]
  · exact hst

/-- `loadDrafts` leaves storage and the session alone. -/
theorem session_loadDrafts (s : AppState) :
    (loadDrafts s).store = s.store ∧ (loadDrafts s).loggedInUser = s.loggedInUser := by
  unfold loadDrafts
  split <;> exact ⟨rfl, rfl⟩

/-- The startup sequence establishes the session invariant from the
storage half alone. -/
theorem inv9_mountRaw (x : AppState) (hst : Inv9Store x.store) : Inv9 (mountRaw x) := by
  have he : (writeEffects (loadGenerated x)).store.authToken = x.store.authToken := by
    show (loadGenerated x).store.authToken = x.store.authToken
    rw [loadGenerated_store]
  have he2 : (writeEffects (loadGenerated x)).store.loggedInUser = x.store.loggedInUser := by
    show (loadGenerated x).store.loggedInUser = x.store.loggedInUser
    rw [loadGenerated_store]
  have hy : Inv9Store (writeEffects (loadGenerated x)).store := by
    intro t ht
    rw [getAuthToken_congr he] at ht
    obtain ⟨u, hu, hune⟩ := hst t ht
    exact ⟨u, by rw [he2, hu], hune⟩
  have hr := inv9_restoreSession (writeEffects (loadGenerated x)) hy
  unfold mountRaw
  exact inv9_congr (by rw [(session_loadDrafts _).1]) (by rw [(session_loadDrafts _).1])
    (session_loadDrafts _).2 hr

/-- Every operation preserves the session invariant, provided successful
logins carry a usable token and a nonempty username. -/
theorem inv9_applyOp (op : Op) (s : AppState) (h : Inv9 s) (hok : authOk op s) :
    Inv9 (applyOp op s) := by
  cases op with
  | generate topic now result => exact inv9_generateTweet s topic now result h
  | generateViaEnter now result =>
    show Inv9 { generateTweet s s.command now result with command := "" }
    have hg := inv9_generateTweet s s.command now result h
    exact inv9_congr rfl rfl rfl hg
  | edit id newText => exact h
  | delete id => exact h
  | publish id pc primary mirror =>
    obtain ⟨h1, h2, h3⟩ := session_postGeneratedTweet s id pc primary mirror
    exact inv9_congr h1 h2 h3 h
  | directPost content pc primary mirror =>
    obtain ⟨h1, h2, h3⟩ := session_handleDirectPost s content pc primary mirror
    exact inv9_congr h1 h2 h3 h
  | authSubmit u result =>
    cases result with
    | err => exact h
    | ok tok =>
      obtain ⟨h1, h2, h3⟩ := hok
      constructor
      · right
        refine ⟨tok, u, ?_, rfl, h3⟩
        show (if tok = "" ∨ tok = "undefined" then none else some tok) = some tok
        simp [h1, h2]
      · intro _ _
        exact ⟨u, rfl, h3⟩
  | logout =>
    refine ⟨Or.inl ⟨rfl, rfl⟩, ?_⟩
    intro t ht
    exact Option.noConfusion ht
  | fetchMine r =>
    cases r with
    | some data => exact h
    | none =>
      refine ⟨Or.inl ⟨rfl, rfl⟩, ?_⟩
      intro t ht
      exact Option.noConfusion ht
  | fetchPublic r => cases r <;> exact h
  | setCommand text => exact h
  | mount => exact inv9_mountRaw s h.2
  | reload => exact inv9_mountRaw (resetMemory s) h.2

/-- One step preserves the session invariant. -/
theorem inv9_step (op : Op) (s : AppState) (h : Inv9 s) (hok : authOk op s) :
    Inv9 (step op s) :=
  inv9_congr rfl rfl rfl (inv9_applyOp op s h hok)

/-- The session invariant holds in the fresh state. -/
theorem inv9_init : Inv9 initState :=
  ⟨Or.inl ⟨rfl, rfl⟩, fun _ ht => Option.noConfusion ht⟩

/-- The session invariant holds in every reachable state. -/
theorem inv9_reaches {s : AppState} (h : ReachesW authOk s) : Inv9 s := by
  induction h with
  | init => exact inv9_init
  | next op s hs hok ih => exact inv9_step op s ih hok

/-! ## Claim theorems -/

/-- C1: the code contradicts the claim at a concrete input.  Publishing the
draft with id 1 while the primary call fails with a non-2xx response both
surfaces the failure message and flips the item to `posted := true`: because
`handleDirectPost` swallows its own exception, `postGeneratedTweet` applies
the id-keyed flip unconditionally after the failed call, a partial state
change on failure. -/
theorem C1_failed_publish_still_marks_posted :
    (step (.publish 1 false (.httpError "boom") .ok) sOneHello).generatedTweets
        = [⟨1, "hello", true⟩] ∧
    (step (.publish 1 false (.httpError "boom") .ok) sOneHello).messageBox
        = some ("boom", .error) ∧
    sOneHello.generatedTweets = [⟨1, "hello", false⟩] :=
  ⟨by decide, by decide, by decide⟩

/-- C2 counterexample: the claim as stated fails when two successful
generations observe the same `Date.now()` value: both items get that
timestamp as id and the canonical list holds a duplicate id. -/
theorem C2_counterexample :
    ¬ ((step (.generate "cats" 5 (.ok "hi"))
          (step (.generate "cats" 5 (.ok "hi")) initState)).generatedTweets.map
        (·.id)).Nodup := by
  decide

/-- C2 (amended): for every sequence of generate, edit, delete, publish,
direct-post, auth, fetch, mount and reload operations in which each
successful generation's timestamp is not already an id of the canonical
list, the canonical list never contains two items sharing an id. -/
theorem C2_no_duplicate_ids {s : AppState} (h : ReachesW freshOk s) :
    (s.generatedTweets.map (·.id)).Nodup :=
  (inv2_reaches h).1

/-- Witness for C2: a concrete reachable state after one generation. -/
theorem C2_witness :
    ((step (.generate "cats" 5 (.ok "hi")) initState).generatedTweets.map
      (·.id)).Nodup :=
  C2_no_duplicate_ids
    (ReachesW.next _ initState ReachesW.init
      (by show (5 : Nat) ∉ genIds initState; decide))

/-- C3 counterexample: the claim as stated fails: `editGeneratedTweet` has
no posted-guard, so editing the already-posted item with id 1 replaces its
text instead of being a no-op. -/
theorem C3_counterexample :
    (editGeneratedTweet { initState with generatedTweets := [⟨1, "a", true⟩] }
        1 "b").generatedTweets = [⟨1, "b", true⟩] ∧
    (editGeneratedTweet { initState with generatedTweets := [⟨1, "a", true⟩] }
        1 "b").generatedTweets ≠ [⟨1, "a", true⟩] :=
  ⟨by decide, by decide⟩

/-- C3 (amended): `edit(id, newText)` is a silent no-op when no item has the
id; when an item has the id its text is replaced whether or not it is
posted, and ids and posted flags are unchanged for all items. -/
theorem C3_edit_semantics (s : AppState) (id : Nat) (txt : String) :
    (id ∉ genIds s → editGeneratedTweet s id txt = s) ∧
    (∀ t ∈ s.generatedTweets, t.id = id →
        ({ t with text := txt } : GenItem)
          ∈ (editGeneratedTweet s id txt).generatedTweets) ∧
    genIds (editGeneratedTweet s id txt) = genIds s ∧
    (editGeneratedTweet s id txt).generatedTweets.map (·.posted)
      = s.generatedTweets.map (·.posted) := by
  refine ⟨?_, ?_, edit_map_ids id txt s.generatedTweets,
    edit_map_posted id txt s.generatedTweets⟩
  · intro hmiss
    have hl : s.generatedTweets.map
        (fun t => if t.id = id then { t with text := txt } else t)
          = s.generatedTweets := by
      conv_rhs => rw [← List.map_id s.generatedTweets]
      refine List.map_congr_left fun a ha => ?_
      refine if_neg fun he => hmiss ?_
      exact he ▸ List.mem_map_of_mem (·.id) ha
    show { s with generatedTweets := _ } = s
    rw [hl]
  · intro t ht htid
    have hmem := List.mem_map_of_mem
      (f := fun t => if t.id = id then { t with text := txt } else t) ht
    simpa [editGeneratedTweet, htid] using hmem

/-- Witness for C3: the no-op on a missing id and the edit of an existing
item, at concrete inputs. -/
theorem C3_witness :
    editGeneratedTweet sOneHello 2 "zz" = sOneHello ∧
    (⟨1, "zz", false⟩ : GenItem)
      ∈ (editGeneratedTweet sOneHello 1 "zz").generatedTweets :=
  ⟨(C3_edit_semantics sOneHello 2 "zz").1 (by decide),
   (C3_edit_semantics sOneHello 1 "zz").2.1 ⟨1, "hello", false⟩ (by decide) rfl⟩

/-- C4 counterexample: the claim as stated fails: `postGeneratedTweet`
performs no length check, so invoked on a 281-character draft it issues the
primary (and mirror) remote call and, on success, changes the canonical
list. -/
theorem C4_counterexample :
    postGeneratedTweetCalls sLong 1 false (.ok "9" longText)
        = [.directPost longText, .mirrorPost longText] ∧
    (postGeneratedTweet sLong 1 false (.ok "9" longText) .ok).generatedTweets
        ≠ sLong.generatedTweets ∧
    MAX_CHAR_LIMIT < longText.length :=
  ⟨by decide, by decide, by decide⟩

/-- C4 (amended): the over-length guard lives in the UI, not in the publish
function: the draft Post button is disabled whenever the draft text exceeds
280 characters (or a post is in flight), so no publish can be triggered from
the UI for such a draft, leaving the canonical list unchanged with no remote
call; `postGeneratedTweet` itself performs no length check. -/
theorem C4_overlong_draft_button_disabled (b : Bool) (t : GenItem)
    (h : MAX_CHAR_LIMIT < t.text.length) : draftPostDisabled b t = true := by
  simp [draftPostDisabled, h]

/-- Witness for C4: the button is disabled on a 281-character draft. -/
theorem C4_witness : draftPostDisabled false ⟨1, longText, false⟩ = true :=
  C4_overlong_draft_button_disabled false ⟨1, longText, false⟩ (by decide)

/-- C5 counterexample: the claim as stated fails on the Enter-key path: the
input is cleared unconditionally when generation is submitted, so on a 401
the typed topic "cats" is discarded. -/
theorem C5_counterexample :
    (step (.generateViaEnter 7 .unauthorized)
        { initState with command := "cats" }).command = "" ∧
    (step (.generateViaEnter 7 .unauthorized)
        { initState with command := "cats" }).command ≠ "cats" :=
  ⟨by decide, by decide⟩

/-- C5 (amended): a 401 during generation clears the session (token and
user), leaves the canonical list unchanged, and reopens the auth modal; the
typed topic survives on the Generate-button path, but the Enter-key path
clears the input unconditionally at submission. -/
theorem C5_generate_unauthorized (s : AppState) (topic : String) (now : Nat)
    (hne : isBlank topic = false) :
    getAuthToken (step (.generate topic now .unauthorized) s).store = none ∧
    (step (.generate topic now .unauthorized) s).loggedInUser = none ∧
    (step (.generate topic now .unauthorized) s).generatedTweets
      = s.generatedTweets ∧
    (step (.generate topic now .unauthorized) s).showAuthModal = true ∧
    (step (.generate topic now .unauthorized) s).command = s.command := by
  simp [step, applyOp, generateTweet, hne, writeEffects, getAuthToken]

/-- Witness for C5: the 401 effects at concrete inputs. -/
theorem C5_witness :
    getAuthToken (step (.generate "cats" 3 .unauthorized) initState).store
        = none ∧
    (step (.generate "cats" 3 .unauthorized) initState).loggedInUser = none ∧
    (step (.generate "cats" 3 .unauthorized) initState).generatedTweets
      = initState.generatedTweets ∧
    (step (.generate "cats" 3 .unauthorized) initState).showAuthModal = true ∧
    (step (.generate "cats" 3 .unauthorized) initState).command
      = initState.command :=
  C5_generate_unauthorized initState "cats" 3 (by decide)

/-- C6 counterexample: the claim as stated fails for a mirror network
error: the thrown mirror fetch escapes to the catch block, so although the
primary direct post succeeded, none of the success effects are applied (no
posted flip, no feed append, no confirmation) and an error is surfaced. -/
theorem C6_counterexample :
    (handleDirectPost sHi "hi" false (.ok "42" "hi") (.netError "down")).generatedTweets
        = [⟨1, "hi", false⟩] ∧
    (handleDirectPost sHi "hi" false (.ok "42" "hi") (.netError "down")).showTweetFeedback
        = false ∧
    (handleDirectPost sHi "hi" false (.ok "42" "hi") (.netError "down")).myTweets
        = [] ∧
    (handleDirectPost sHi "hi" false (.ok "42" "hi") (.netError "down")).messageBox
        = some ("down", .error) :=
  ⟨by decide, by decide, by decide, by decide⟩

/-- C6 (amended): for an authenticated publish whose primary direct-post
call succeeds, all success effects are applied regardless of a mirror
non-2xx response (only logged); but a mirror network error, which throws,
aborts the success effects, so only non-throwing mirror failures are
tolerated. -/
theorem C6_mirror_failure_tolerance (s : AppState) (content tid ttext : String)
    (mirror : MirrorResult) (hne : isBlank content = false)
    (hm : mirrorThrows mirror = false) :
    (handleDirectPost s content false (.ok tid ttext) mirror).generatedTweets
        = flipByText content s.generatedTweets ∧
    (handleDirectPost s content false (.ok tid ttext) mirror).myTweets
        = ⟨tid, ttext⟩ :: s.myTweets ∧
    (handleDirectPost s content false (.ok tid ttext) mirror).tweets
        = ⟨tid, ttext⟩ :: s.tweets ∧
    (handleDirectPost s content false (.ok tid ttext) mirror).showTweetFeedback
        = true ∧
    (handleDirectPost s content false (.ok tid ttext) mirror).lastTweetId
        = some tid ∧
    (handleDirectPost s content false (.ok tid ttext) mirror).generatedTweet
        = none := by
  cases mirror <;> simp_all [handleDirectPost, mirrorThrows]

/-- Witness for C6: a failed (non-2xx) mirror call does not prevent any
success effect, at concrete inputs. -/
theorem C6_witness :
    (handleDirectPost sHi "hi" false (.ok "42" "hi")
        (.httpError "mirror down")).generatedTweets
        = flipByText "hi" sHi.generatedTweets ∧
    (handleDirectPost sHi "hi" false (.ok "42" "hi")
        (.httpError "mirror down")).myTweets = ⟨"42", "hi"⟩ :: sHi.myTweets ∧
    (handleDirectPost sHi "hi" false (.ok "42" "hi")
        (.httpError "mirror down")).tweets = ⟨"42", "hi"⟩ :: sHi.tweets ∧
    (handleDirectPost sHi "hi" false (.ok "42" "hi")
        (.httpError "mirror down")).showTweetFeedback = true ∧
    (handleDirectPost sHi "hi" false (.ok "42" "hi")
        (.httpError "mirror down")).lastTweetId = some "42" ∧
    (handleDirectPost sHi "hi" false (.ok "42" "hi")
        (.httpError "mirror down")).generatedTweet = none :=
  C6_mirror_failure_tolerance sHi "hi" "42" "hi" (.httpError "mirror down")
    (by decide) (by decide)

/-- C7 counterexample: the claim as stated fails: the load merge is not a
set union preferring the in-memory entry: with id 1 in memory as "new" and
in the snapshot as "old", the merge keeps only the snapshot copy and drops
the in-memory one. -/
theorem C7_counterexample :
    (loadDrafts sMergeEx).generatedTweets = [⟨1, "old", false⟩] ∧
    (⟨1, "new", false⟩ : GenItem) ∉ (loadDrafts sMergeEx).generatedTweets ∧
    (loadDrafts sMergeEx).generatedTweets
      ≠ specMergeUnionById [⟨1, "new", false⟩] [⟨1, "old", false⟩] :=
  ⟨by decide, by decide, by decide⟩

/-- C7 (amended): the startup load is idempotent: running the full mount
sequence twice with no intervening mutation yields the identical state (in
particular an identical canonical list); the merge, however, keeps the
posted in-memory items and replaces the unposted ones wholesale with the
stored snapshot rather than preferring in-memory entries. -/
theorem C7_load_idempotent (s : AppState) :
    step .mount (step .mount s) = step .mount s := by
  obtain ⟨⟨ta, ua, ga, da⟩, lu, g, gt, cmd, hist, tw, mt, sam, stf, lti, mb, ip⟩ := s
  cases ga <;>
    simp [step, applyOp, mountRaw, loadGenerated, writeEffects, restoreSession,
      restoreVal, getAuthToken, strTruthy, loadDrafts, List.filter_append,
      filter_posted_posted, filter_posted_not, filter_not_posted, filter_not_not]

/-- C8: after every step the `draftTweets` storage key holds exactly the
unposted subset of the canonical list (so no posted item is ever written to
it), and after a publish whose primary call succeeded the published id is
absent from that snapshot. -/
theorem C8_snapshot_writethrough :
    (∀ (op : Op) (s : AppState),
        (step op s).store.draftTweets
          = some ((step op s).generatedTweets.filter fun t => !t.posted)) ∧
    (∀ (s : AppState) (id : Nat) (pc : Bool) (tid ttext : String)
        (mirror : MirrorResult),
        id ∉ (((step (.publish id pc (.ok tid ttext) mirror) s).generatedTweets.filter
          fun t => !t.posted).map (·.id)) ) := by
  constructor
  · intro op s
    rfl
  · intro s id pc tid ttext mirror hmem
    obtain ⟨t, htf, hid⟩ := List.mem_map.mp hmem
    obtain ⟨htl, htp⟩ := List.mem_filter.mp htf
    have htl' : t ∈ (postGeneratedTweet s id pc (.ok tid ttext) mirror).generatedTweets :=
      htl
    unfold postGeneratedTweet at htl'
    cases hf : s.generatedTweets.find? (fun t => t.id == id) with
    | none =>
      rw [hf] at htl'
      have hne := List.find?_eq_none.mp hf t htl'
      simp only [beq_iff_eq] at hne
      exact hne hid
    | some tw =>
      rw [hf] at htl'
      have hp := flipById_id_posted htl' hid
      rw [hp] at htp
      simp at htp

/-- C9 counterexample: the claim as stated fails: a successful login whose
response carries the access token "undefined" stores a token that
`getAuthToken` treats as absent while still setting the username, a partial
auth state. -/
theorem C9_counterexample :
    getAuthToken (step (.authSubmit "alice" (.ok "undefined")) initState).store
        = none ∧
    (step (.authSubmit "alice" (.ok "undefined")) initState).loggedInUser
        = some "alice" :=
  ⟨by decide, by decide⟩

/-- C9 (amended): provided every successful login/signup returns a nonempty
access token different from the literal "undefined" and a nonempty
username, then in every reachable state the effective auth token and the
username are both present or both absent. -/
theorem C9_session_all_or_nothing {s : AppState} (h : ReachesW authOk s) :
    (getAuthToken s.store).isSome = s.loggedInUser.isSome := by
  obtain ⟨hm, _⟩ := inv9_reaches h
  rcases hm with ⟨h1, h2⟩ | ⟨t, u, h1, h2, _⟩ <;> simp [h1, h2]

/-- Witness for C9: the invariant at a concrete reachable state after one
successful login. -/
theorem C9_witness :
    (getAuthToken (step (.authSubmit "alice" (.ok "tok123")) initState).store).isSome
      = (step (.authSubmit "alice" (.ok "tok123")) initState).loggedInUser.isSome :=
  C9_session_all_or_nothing
    (ReachesW.next _ initState ReachesW.init
      (by
        show "tok123" ≠ "" ∧ "tok123" ≠ "undefined" ∧ "alice" ≠ ""
        exact ⟨by decide, by decide, by decide⟩))

/-- C10: after a successful direct post of content `c` (with the mirror not
throwing), the canonical list becomes exactly the text-keyed flip: every
item whose text equals `c` is marked posted, so one publish flips all
drafts sharing that text. -/
theorem C10_posted_flip_keyed_by_text (s : AppState) (content : String)
    (pc : Bool) (tid ttext : String) (mirror : MirrorResult)
    (hne : isBlank content = false)
    (hm : pc = true ∨ mirrorThrows mirror = false) :
    (handleDirectPost s content pc (.ok tid ttext) mirror).generatedTweets
        = flipByText content s.generatedTweets ∧
    ∀ t ∈ s.generatedTweets, t.text = content →
      ({ t with posted := true } : GenItem)
        ∈ (handleDirectPost s content pc (.ok tid ttext) mirror).generatedTweets := by
  have hlist : (handleDirectPost s content pc (.ok tid ttext) mirror).generatedTweets
      = flipByText content s.generatedTweets := by
    rcases hm with hpc | hmt
    · subst hpc
      cases mirror <;> simp [handleDirectPost, hne]
    · cases pc <;> cases mirror <;> simp_all [handleDirectPost, mirrorThrows]
  refine ⟨hlist, ?_⟩
  intro t ht htc
  rw [hlist]
  have hmem := List.mem_map_of_mem
    (f := fun t => if t.text = content then { t with posted := true } else t) ht
  simpa [flipByText, htc] using hmem

/-- Witness for C10: posting "x" flips both drafts that share the text. -/
theorem C10_witness :
    (handleDirectPost sTwoSame "x" false (.ok "7" "x") .ok).generatedTweets
        = flipByText "x" sTwoSame.generatedTweets ∧
    (⟨1, "x", true⟩ : GenItem)
      ∈ (handleDirectPost sTwoSame "x" false (.ok "7" "x") .ok).generatedTweets :=
  ⟨(C10_posted_flip_keyed_by_text sTwoSame "x" false "7" "x" .ok (by decide)
      (Or.inr (by decide))).1,
   (C10_posted_flip_keyed_by_text sTwoSame "x" false "7" "x" .ok (by decide)
      (Or.inr (by decide))).2 ⟨1, "x", false⟩ (by decide) rfl⟩
